import Mathlib

/-!
Verification of the GstFileMemAllocator core (gst/gstfilememallocator.c):
a bump allocator that backs memory blocks with ranges of a single
temporary file, with read-only sub-view sharing, span detection and
mmap-based mapping.

The C code is shallowly embedded: machine-size quantities (gsize, off_t,
guint64) are modelled as unbounded `Nat` (the allocator's own arithmetic
never relies on wraparound for the behaviours claimed by the spec), the
backing file is a function from byte positions to byte values, and the
nondeterministic outcomes of the environment (fallocate and mmap failing)
are explicit boolean parameters.
-/

set_option autoImplicit false

namespace FileMem

/-! ### Flag constants from the GStreamer headers -/

/-- Value of GST_MAP_READ (gstmemory.h, bit 0 of GstMapFlags). -/
def GST_MAP_READ : Nat := 1

/-- Value of GST_MAP_WRITE (gstmemory.h, bit 1 of GstMapFlags). -/
def GST_MAP_WRITE : Nat := 2

/-- Value of GST_MINI_OBJECT_FLAG_LOCK_READONLY (gstminiobject.h, 1 <<< 1). -/
def GST_MINI_OBJECT_FLAG_LOCK_READONLY : Nat := 2

/-- Value of PROT_READ (sys/mman.h). -/
def PROT_READ : Nat := 1

/-- Value of PROT_WRITE (sys/mman.h). -/
def PROT_WRITE : Nat := 2

/-- Value of PROT_NONE (sys/mman.h). -/
def PROT_NONE : Nat := 0

/-! ### Memory-mapping model

An established mapping records the protection it was created with, whether
it was created MAP_SHARED or MAP_PRIVATE, the file offset and length it
covers, and a snapshot of the file contents at establishment time (which
is what a private mapping keeps reading after the file changes).
-/

/-- Sharing mode of an mmap mapping: MAP_SHARED or MAP_PRIVATE. -/
inductive MapMode where
  | shared
  | priv
deriving DecidableEq

/-- One established memory mapping of a range of the backing file. -/
structure Mapping where
  prot : Nat
  mode : MapMode
  fileOff : Nat
  len : Nat
  snapshot : Nat → Nat

/-- Establish a mapping of `len` bytes of `file` at offset `off`; the file
contents at establishment time are recorded as the snapshot. -/
def establishMapping (file : Nat → Nat) (prot : Nat) (mode : MapMode)
    (off len : Nat) : Mapping :=
  { prot := prot, mode := mode, fileOff := off, len := len,
    snapshot := fun i => file (off + i) }

/-- Reading byte `i` (relative to the start of the mapping) through a
mapping: a MAP_SHARED mapping reads through to the current file contents,
a MAP_PRIVATE mapping keeps reading its snapshot. -/
def Mapping.readByte (file : Nat → Nat) (m : Mapping) (i : Nat) : Nat :=
  match m.mode with
  | MapMode.shared => file (m.fileOff + i)
  | MapMode.priv => m.snapshot i

/-- Writing byte `i` of a mapping with value `v`: a write through a
MAP_SHARED mapping reaches the backing file; a write through a
MAP_PRIVATE mapping does not (copy-on-write). The result is the new
file contents. -/
def writeThrough (file : Nat → Nat) (m : Mapping) (i v : Nat) : Nat → Nat :=
  match m.mode with
  | MapMode.shared => fun j => if j = m.fileOff + i then v else file j
  | MapMode.priv => file

/-- Whether a mapping's protection permits reads (PROT_READ bit). -/
def Mapping.canRead (m : Mapping) : Bool := m.prot.testBit 0

/-- Whether a mapping's protection permits writes (PROT_WRITE bit). -/
def Mapping.canWrite (m : Mapping) : Bool := m.prot.testBit 1

/-! ### Block and allocator state

`GstFileMemory` embeds `struct _GstFileMemory` together with the
`GstMemory` header fields that the allocator reads and writes
(mini-object flags, maxsize, align, offset, size, parent). `parent` is a
direct optional reference to the parent block, and `data` is the block's
current-mapping field (NULL modelled as `none`).
-/

/-- One allocated or shared block: the GstMemory header fields used by the
allocator plus the file offset and the current-mapping field. -/
inductive GstFileMemory where
  | mk (flags : Nat) (maxsize : Nat) (align : Nat) (offset : Nat) (size : Nat)
      (parent : Option GstFileMemory) (f_offset : Nat) (data : Option Mapping)

/-- Mini-object flags of a block. -/
def GstFileMemory.flags : GstFileMemory → Nat
  | .mk f _ _ _ _ _ _ _ => f

/-- Reserved capacity (GstMemory.maxsize) of a block. -/
def GstFileMemory.maxsize : GstFileMemory → Nat
  | .mk _ m _ _ _ _ _ _ => m

/-- Alignment (GstMemory.align) of a block. -/
def GstFileMemory.align : GstFileMemory → Nat
  | .mk _ _ a _ _ _ _ _ => a

/-- Logical offset (GstMemory.offset) of a block. -/
def GstFileMemory.offset : GstFileMemory → Nat
  | .mk _ _ _ o _ _ _ _ => o

/-- Logical size (GstMemory.size) of a block. -/
def GstFileMemory.size : GstFileMemory → Nat
  | .mk _ _ _ _ s _ _ _ => s

/-- Parent reference (GstMemory.parent) of a block. -/
def GstFileMemory.parent : GstFileMemory → Option GstFileMemory
  | .mk _ _ _ _ _ p _ _ => p

/-- Backing-file offset (GstFileMemory.f_offset) of a block. -/
def GstFileMemory.f_offset : GstFileMemory → Nat
  | .mk _ _ _ _ _ _ fo _ => fo

/-- Current-mapping field (GstFileMemory.data) of a block. -/
def GstFileMemory.data : GstFileMemory → Option Mapping
  | .mk _ _ _ _ _ _ _ d => d

/-- Replace only the current-mapping field of a block. -/
def GstFileMemory.withData : GstFileMemory → Option Mapping → GstFileMemory
  | .mk f m a o s p fo _, d => .mk f m a o s p fo d

/-- Allocation parameters (GstAllocationParams); `pfx` embeds the field
spelled p-r-e-f-i-x in C, which is a reserved word in Lean. -/
structure GstAllocationParams where
  flags : Nat
  align : Nat
  pfx : Nat
  padding : Nat

/-- Default allocation parameters, as produced by
gst_allocation_params_init (all fields zero), which is what a NULL
`params` argument resolves to. -/
def gst_allocation_params_default : GstAllocationParams :=
  { flags := 0, align := 0, pfx := 0, padding := 0 }

/-- Pool-wide allocator state (struct _GstFileMemAllocator): the page
size used as alignment granularity, the backing-file size (capacity) and
the bump cursor `f_offset_next`. The fd and file template play no role in
the allocation logic. -/
structure GstFileMemAllocator where
  page_size : Nat
  file_size : Nat
  f_offset_next : Nat

/-! ### The allocator operations, translated from gstfilememallocator.c -/

/-- Embeds `align_size` (lines 141-145): the C text is
`(size + alignment - 1) & ~(alignment - 1)`; for the power-of-two
alignments it is used with, the mask clears the low bits, i.e. rounds
`size + alignment - 1` down to a multiple of `alignment`, which is what
subtracting the remainder does. -/
def align_size (size alignment : Nat) : Nat :=
  (size + alignment - 1) - (size + alignment - 1) % alignment

/-- Embeds `gst_file_mem_alloc` (lines 147-190). `fallocateFails` is the
environment's answer to the best-effort fallocate reservation (false when
fallocate succeeds or is compiled out). Returns the allocated block (or
`none`) together with the updated allocator state. -/
def gst_file_mem_alloc (allocator : GstFileMemAllocator) (size : Nat)
    (params : GstAllocationParams) (fallocateFails : Bool) :
    Option GstFileMemory × GstFileMemAllocator :=
  let maxsize0 := align_size (size + params.pfx + params.padding) allocator.page_size
  let maxsize := if maxsize0 = 0 then allocator.page_size else maxsize0
  if allocator.f_offset_next + maxsize > allocator.file_size then
    (none, allocator)
  else if fallocateFails then
    (none, allocator)
  else
    (some (GstFileMemory.mk params.flags maxsize params.align params.pfx size
        none allocator.f_offset_next none),
     { allocator with f_offset_next := allocator.f_offset_next + maxsize })

/-- Embeds `gst_file_mem_free` (lines 192-220): the hole punch affects
only the disk blocks of the already-assigned range; no allocator field
(in particular not `f_offset_next`) is touched. -/
def gst_file_mem_free (allocator : GstFileMemAllocator)
    (_mem : GstFileMemory) : GstFileMemAllocator :=
  allocator

/-- Embeds `gst_file_mem_get_map_prot` (lines 222-238): an exact switch
on the flags value; any other value hits g_return_val_if_reached and
yields PROT_NONE. -/
def gst_file_mem_get_map_prot (flags : Nat) : Nat :=
  if flags = GST_MAP_READ then PROT_READ
  else if flags = GST_MAP_WRITE then PROT_WRITE
  else PROT_NONE

/-- Embeds `gst_file_mem_map` (lines 240-261): computes the protection,
calls mmap with MAP_SHARED over `maxsize` bytes at the block's file
offset (`mmapFails` is the environment's MAP_FAILED answer), and on
success stores the fresh mapping into the block's own `data` field
(`return mem->data = res`). On failure the block is untouched. -/
def gst_file_mem_map (file : Nat → Nat) (mem : GstFileMemory) (maxsize : Nat)
    (flags : Nat) (mmapFails : Bool) : Option Mapping × GstFileMemory :=
  let mmap_prot := gst_file_mem_get_map_prot flags
  if mmapFails then
    (none, mem)
  else
    let res := establishMapping file mmap_prot MapMode.shared mem.f_offset maxsize
    (some res, mem.withData (some res))

/-- Embeds `gst_file_mem_share` (lines 275-302). `size?` is the gsize
`size` argument with `none` standing for the all-ones ((gsize) -1)
"remainder" sentinel. Resolves the real parent by one step of the parent
reference, builds the read-only sub-block from the source's own fields,
and eagerly read-maps the source, installing the result as the sub's
`data` (which, through gst_file_mem_map, also overwrites the source's
`data`). Returns the sub-block and the (possibly mutated) source. -/
def gst_file_mem_share (file : Nat → Nat) (mem : GstFileMemory) (offset : Nat)
    (size? : Option Nat) (mmapFails : Bool) : GstFileMemory × GstFileMemory :=
  let parent := match mem.parent with
    | none => mem
    | some p => p
  let size := match size? with
    | none => mem.size - offset
    | some s => s
  let mapres := gst_file_mem_map file mem mem.maxsize GST_MAP_READ mmapFails
  let sub := GstFileMemory.mk
      (parent.flags ||| GST_MINI_OBJECT_FLAG_LOCK_READONLY)
      mem.maxsize mem.align (mem.offset + offset) size
      (some parent) mem.f_offset mapres.1
  (sub, mapres.2)

/-- Embeds `gst_file_mem_is_span` (lines 304-319). `wantOffset` is
whether the caller passed a non-NULL `offset` out-parameter: only then is
the parent checked (g_return_val_if_fail returns FALSE on a parentless
first argument) and the relative offset computed. The first component is
the returned boolean, the second the value written through `offset`. -/
def gst_file_mem_is_span (mem1 mem2 : GstFileMemory) (wantOffset : Bool) :
    Bool × Option Nat :=
  if wantOffset then
    match mem1.parent with
    | none => (false, none)
    | some parent =>
        ((mem1.f_offset == mem2.f_offset
            && mem1.offset + mem1.size == mem2.offset),
         some (mem1.offset - parent.offset))
  else
    ((mem1.f_offset == mem2.f_offset
        && mem1.offset + mem1.size == mem2.offset), none)

/-- Embeds the earlier `gst_file_mem_alloc` (src/unnamed/part_002,
lines 102-128). It has no zero-size forcing and no fallocate call, and
its line `mem->f_offset = allocator->f_offset_next =+ maxsize;` parses
as an assignment of unary-plus `maxsize`: the cursor is overwritten with
`maxsize` and the block receives that same value as its file offset. -/
def gst_file_mem_alloc_v0 (allocator : GstFileMemAllocator) (size : Nat)
    (params : GstAllocationParams) :
    Option GstFileMemory × GstFileMemAllocator :=
  let maxsize := align_size (size + params.pfx + params.padding) allocator.page_size
  if allocator.f_offset_next + maxsize > allocator.file_size then
    (none, allocator)
  else
    (some (GstFileMemory.mk params.flags maxsize params.align params.pfx size
        none maxsize none),
     { allocator with f_offset_next := maxsize })

/-! ### Operation sequences on a pool -/

/-- One pool-level operation: an allocation request (with its
environment answer for fallocate) or a release of a block. -/
inductive PoolOp where
  | alloc (size : Nat) (params : GstAllocationParams) (fallocateFails : Bool)
  | free (mem : GstFileMemory)

/-- Run one operation, returning the block produced (if any) and the new
allocator state. -/
def runOp (a : GstFileMemAllocator) : PoolOp → Option GstFileMemory × GstFileMemAllocator
  | PoolOp.alloc size params ff => gst_file_mem_alloc a size params ff
  | PoolOp.free mem => (none, gst_file_mem_free a mem)

/-- Run a sequence of operations, collecting the successfully allocated
blocks in order and the final allocator state. -/
def runOps : GstFileMemAllocator → List PoolOp → List GstFileMemory × GstFileMemAllocator
  | a, [] => ([], a)
  | a, op :: rest =>
      let step := runOp a op
      let tail := runOps step.2 rest
      (match step.1 with
       | some m => m :: tail.1
       | none => tail.1,
       tail.2)

/-- Sum of the reserved capacities of a list of blocks. -/
def sumReserved : List GstFileMemory → Nat
  | [] => 0
  | m :: rest => m.maxsize + sumReserved rest

/-! ### Arithmetic facts about align_size -/

theorem align_size_dvd (x p : Nat) : p ∣ align_size x p := by
  unfold align_size
  have h := Nat.div_add_mod (x + p - 1) p
  exact ⟨(x + p - 1) / p, by omega⟩

theorem le_align_size (x p : Nat) (hp : 0 < p) : x ≤ align_size x p := by
  unfold align_size
  have h := Nat.mod_lt (x + p - 1) hp
  omega

theorem mod_eq_zero_of_dvd {x p : Nat} (hd : p ∣ x) : x % p = 0 := by
  obtain ⟨c, rfl⟩ := hd
  exact Nat.mul_mod_right p c

theorem align_size_of_dvd (x p : Nat) (hp : 0 < p) (hd : p ∣ x) :
    align_size x p = x := by
  unfold align_size
  have hmod : (x + p - 1) % p = p - 1 := by
    have h1 : x + p - 1 = x + (p - 1) := by omega
    rw [h1, Nat.add_mod, mod_eq_zero_of_dvd hd]
    simp [Nat.mod_eq_of_lt (show p - 1 < p by omega)]
  omega

theorem align_size_succ_of_dvd (x p : Nat) (hp : 0 < p) (hd : p ∣ x) :
    align_size (x + 1) p = x + p := by
  unfold align_size
  have hmod : (x + 1 + p - 1) % p = 0 := by
    have h1 : x + 1 + p - 1 = x + p := by omega
    rw [h1, Nat.add_mod, mod_eq_zero_of_dvd hd]
    simp [Nat.mod_self]
  omega

/-! ### Characterization of one allocation -/

/-- The reserved capacity an allocation request resolves to. -/
def reservedFor (a : GstFileMemAllocator) (S : Nat) (params : GstAllocationParams) : Nat :=
  let r0 := align_size (S + params.pfx + params.padding) a.page_size
  if r0 = 0 then a.page_size else r0

theorem reservedFor_eq (a : GstFileMemAllocator) (S : Nat)
    (params : GstAllocationParams) :
    reservedFor a S params =
      if align_size (S + params.pfx + params.padding) a.page_size = 0
      then a.page_size
      else align_size (S + params.pfx + params.padding) a.page_size :=
  rfl

theorem dvd_reservedFor (a : GstFileMemAllocator) (S : Nat)
    (params : GstAllocationParams) : a.page_size ∣ reservedFor a S params := by
  rw [reservedFor_eq]
  split
  · exact dvd_refl _
  · exact align_size_dvd _ _

theorem reservedFor_pos (a : GstFileMemAllocator) (S : Nat)
    (params : GstAllocationParams) (hp : 0 < a.page_size) :
    0 < reservedFor a S params := by
  rw [reservedFor_eq]
  split
  · exact hp
  · rename_i h0
    omega

theorem le_reservedFor (a : GstFileMemAllocator) (S : Nat)
    (params : GstAllocationParams) (hp : 0 < a.page_size) :
    S ≤ reservedFor a S params := by
  rw [reservedFor_eq]
  have h := le_align_size (S + params.pfx + params.padding) a.page_size hp
  split
  · rename_i h0
    omega
  · omega

theorem alloc_eq (a : GstFileMemAllocator) (S : Nat)
    (params : GstAllocationParams) (ff : Bool) :
    gst_file_mem_alloc a S params ff =
      if a.f_offset_next + reservedFor a S params > a.file_size then (none, a)
      else if ff then (none, a)
      else (some (GstFileMemory.mk params.flags (reservedFor a S params)
              params.align params.pfx S none a.f_offset_next none),
            { a with f_offset_next := a.f_offset_next + reservedFor a S params }) :=
  rfl

theorem alloc_success (a : GstFileMemAllocator) (S : Nat)
    (params : GstAllocationParams) (ff : Bool) (m : GstFileMemory)
    (h : (gst_file_mem_alloc a S params ff).1 = some m) :
    m = GstFileMemory.mk params.flags (reservedFor a S params) params.align
        params.pfx S none a.f_offset_next none
    ∧ (gst_file_mem_alloc a S params ff).2
        = { a with f_offset_next := a.f_offset_next + reservedFor a S params }
    ∧ a.f_offset_next + reservedFor a S params ≤ a.file_size
    ∧ ff = false := by
  rw [alloc_eq] at h
  split at h
  · exact absurd h (by simp)
  · split at h
    · exact absurd h (by simp)
    · rename_i hcap hff
      rw [alloc_eq, if_neg hcap, if_neg hff]
      simp only [Option.some.injEq] at h
      exact ⟨h.symm, rfl, by omega, by simpa using hff⟩

theorem alloc_fail (a : GstFileMemAllocator) (S : Nat)
    (params : GstAllocationParams) (ff : Bool)
    (h : (gst_file_mem_alloc a S params ff).1 = none) :
    gst_file_mem_alloc a S params ff = (none, a) := by
  rw [alloc_eq] at h ⊢
  split at h
  · rename_i hcap
    rw [if_pos hcap]
  · split at h
    · rename_i hcap hff
      rw [if_neg hcap, if_pos hff]
    · exact absurd h (by simp)

/-! ### Invariants of operation sequences -/

theorem runOp_preserve (a : GstFileMemAllocator) (op : PoolOp) :
    (runOp a op).2.page_size = a.page_size
    ∧ (runOp a op).2.file_size = a.file_size := by
  cases op with
  | alloc S params ff =>
      simp only [runOp]
      rw [alloc_eq]
      split
      · exact ⟨rfl, rfl⟩
      · split
        · exact ⟨rfl, rfl⟩
        · exact ⟨rfl, rfl⟩
  | free mem => exact ⟨rfl, rfl⟩

theorem runOps_preserve (ops : List PoolOp) (a : GstFileMemAllocator) :
    (runOps a ops).2.page_size = a.page_size
    ∧ (runOps a ops).2.file_size = a.file_size := by
  induction ops generalizing a with
  | nil => exact ⟨rfl, rfl⟩
  | cons op rest ih =>
      have h1 := runOp_preserve a op
      have h2 := ih (runOp a op).2
      simp only [runOps]
      refine ⟨?_, ?_⟩
      · exact h2.1.trans h1.1
      · exact h2.2.trans h1.2

theorem runOps_cursor (ops : List PoolOp) (a : GstFileMemAllocator) :
    (runOps a ops).2.f_offset_next
      = a.f_offset_next + sumReserved (runOps a ops).1 := by
  induction ops generalizing a with
  | nil => simp [runOps, sumReserved]
  | cons op rest ih =>
      cases op with
      | free mem =>
          simpa [runOps, runOp, gst_file_mem_free] using ih a
      | alloc S params ff =>
          rcases hres : (gst_file_mem_alloc a S params ff).1 with _ | m
          · have hfail := alloc_fail a S params ff hres
            simp [runOps, runOp, hfail, sumReserved, ih a]
          · obtain ⟨hm, hst, _, _⟩ := alloc_success a S params ff m hres
            simp only [runOps, runOp, hres, hst]
            have := ih { a with f_offset_next := a.f_offset_next + reservedFor a S params }
            simp only [this, sumReserved]
            have hmx : m.maxsize = reservedFor a S params := by
              rw [hm]; rfl
            simp only [hmx]
            omega

theorem runOps_le_cursor (ops : List PoolOp) (a : GstFileMemAllocator) :
    a.f_offset_next ≤ (runOps a ops).2.f_offset_next := by
  rw [runOps_cursor]
  omega

theorem runOps_blocks (ops : List PoolOp) (a : GstFileMemAllocator)
    (m : GstFileMemory) (hm : m ∈ (runOps a ops).1) :
    a.f_offset_next ≤ m.f_offset
    ∧ m.f_offset + m.maxsize ≤ (runOps a ops).2.f_offset_next
    ∧ m.f_offset + m.maxsize ≤ a.file_size := by
  induction ops generalizing a with
  | nil => simp [runOps] at hm
  | cons op rest ih =>
      cases op with
      | free mem =>
          have h := ih a (by simpa [runOps, runOp, gst_file_mem_free] using hm)
          simpa [runOps, runOp, gst_file_mem_free] using h
      | alloc S params ff =>
          rcases hres : (gst_file_mem_alloc a S params ff).1 with _ | m0
          · have hfail := alloc_fail a S params ff hres
            have hm' : m ∈ (runOps a rest).1 := by
              simpa [runOps, runOp, hfail] using hm
            have h := ih a hm'
            simpa [runOps, runOp, hfail] using h
          · obtain ⟨hm0, hst, hcap, _⟩ := alloc_success a S params ff m0 hres
            set a' := { a with f_offset_next := a.f_offset_next + reservedFor a S params }
              with ha'
            have hmem : m = m0 ∨ m ∈ (runOps a' rest).1 := by
              have : m ∈ m0 :: (runOps a' rest).1 := by
                simpa [runOps, runOp, hres, hst] using hm
              simpa using this
            have hfin : (runOps a (PoolOp.alloc S params ff :: rest)).2
                = (runOps a' rest).2 := by
              simp [runOps, runOp, hres, hst]
            rcases hmem with hme | hmtail
            · subst hme
              have hoff : m.f_offset = a.f_offset_next := by rw [hm0]; rfl
              have hmx : m.maxsize = reservedFor a S params := by rw [hm0]; rfl
              have hmono := runOps_le_cursor rest a'
              refine ⟨by omega, ?_, by omega⟩
              rw [hfin]
              have : a'.f_offset_next = a.f_offset_next + reservedFor a S params := rfl
              omega
            · have h := ih a' hmtail
              have hfs : a'.file_size = a.file_size := rfl
              have hns : a'.f_offset_next = a.f_offset_next + reservedFor a S params := rfl
              rw [hfin]
              refine ⟨by omega, h.2.1, by omega⟩

theorem runOps_append (l1 l2 : List PoolOp) (a : GstFileMemAllocator) :
    runOps a (l1 ++ l2)
      = ((runOps a l1).1 ++ (runOps (runOps a l1).2 l2).1,
         (runOps (runOps a l1).2 l2).2) := by
  induction l1 generalizing a with
  | nil => simp [runOps]
  | cons op rest ih =>
      simp only [List.cons_append, runOps, List.append_eq]
      rw [ih (runOp a op).2]
      cases h : (runOp a op).1 <;> simp

theorem runOps_dvd_cursor (p : Nat) (_hp : 0 < p) (ops : List PoolOp)
    (a : GstFileMemAllocator) (hpage : a.page_size = p)
    (hdvd : p ∣ a.f_offset_next) :
    p ∣ (runOps a ops).2.f_offset_next := by
  induction ops generalizing a with
  | nil => simpa [runOps] using hdvd
  | cons op rest ih =>
      cases op with
      | free mem =>
          simp only [runOps, runOp, gst_file_mem_free]
          exact ih a hpage hdvd
      | alloc S params ff =>
          rcases hres : (gst_file_mem_alloc a S params ff).1 with _ | m0
          · have hfail := alloc_fail a S params ff hres
            simp only [runOps, runOp, hfail]
            exact ih a hpage hdvd
          · obtain ⟨_, hst, _, _⟩ := alloc_success a S params ff m0 hres
            simp only [runOps, runOp, hres, hst]
            refine ih _ hpage ?_
            show p ∣ a.f_offset_next + reservedFor a S params
            have hr : p ∣ reservedFor a S params := hpage ▸ dvd_reservedFor a S params
            exact Nat.dvd_add hdvd hr

/-! ### Concrete example data

A fresh pool with page size 4096 and capacity 2^20 (the configuration of
the unit tests), the 4-byte top-level block it hands out first, and some
sub-views of that block. `file0` is an all-zero backing file. -/

/-- An all-zero backing file. -/
def file0 : Nat → Nat := fun _ => 0

/-- A fresh pool: page size 4096, capacity 2^20, cursor 0. -/
def poolA : GstFileMemAllocator :=
  { page_size := 4096, file_size := 2^20, f_offset_next := 0 }

/-- The 4-byte top-level block allocated first from `poolA` (reserved
capacity one page, file offset 0). -/
def b4 : GstFileMemory := GstFileMemory.mk 0 4096 0 0 4 none 0 none

/-- A zero-size sub-view of `b4` at relative offset 0. -/
def s00 : GstFileMemory := (gst_file_mem_share file0 b4 0 (some 0) false).1

/-- The sub-view share(b4, 0, 2). -/
def s02 : GstFileMemory := (gst_file_mem_share file0 b4 0 (some 2) false).1

/-- The sub-view share(b4, 2, 2). -/
def s22 : GstFileMemory := (gst_file_mem_share file0 b4 2 (some 2) false).1

/-! ### Claim C1 -/

/-- Claim C1, counterexample: the claim asserts that no Block is ever a
span with itself, including a zero-size sub-view compared with itself;
but for the zero-size sub-view `s00 = share(b4, 0, 0)` of the 4-byte
top-level block `b4` (itself allocated by the code from a fresh pool),
`gst_file_mem_is_span (s00, s00)` returns TRUE: `s00` has a parent, the
file offsets agree, and `s00.offset + s00.size = 0 + 0 = 0 = s00.offset`. -/
theorem c1_counterexample :
    (gst_file_mem_alloc poolA 4 gst_allocation_params_default false).1 = some b4
    ∧ s00.parent = some b4
    ∧ s00.size = 0
    ∧ (gst_file_mem_is_span s00 s00 true).1 = true :=
  ⟨rfl, rfl, rfl, rfl⟩

/-- Claim C1 (amended): with the offset out-parameter requested,
`is_span(a, b)` is true iff `a` has a parent, `a` and `b` share the same
backing-file offset, and `a.offset + a.size = b.offset`; without the
out-parameter the parent condition is not checked. Consequently a
top-level Block is never a span as first argument (offset requested), a
Block of nonzero logical size is never a span with itself, and a
sub-view `share(b, rel, len)` of a top-level block `b` is a span with its
own parent exactly when `rel + len = 0` (so a zero-size sub-view at
relative offset 0 is a span with its parent, and a zero-size sub-view is
a span with itself). -/
theorem c1_is_span_amended (a b : GstFileMemory) :
    ((gst_file_mem_is_span a b true).1 = true ↔
      (a.parent ≠ none ∧ a.f_offset = b.f_offset ∧ a.offset + a.size = b.offset))
    ∧ ((gst_file_mem_is_span a b false).1 = true ↔
      (a.f_offset = b.f_offset ∧ a.offset + a.size = b.offset))
    ∧ (a.parent = none → (gst_file_mem_is_span a b true).1 = false)
    ∧ (a.size ≠ 0 → (gst_file_mem_is_span a a true).1 = false)
    ∧ (∀ (file : Nat → Nat) (rel len : Nat) (ff : Bool), b.parent = none →
        ((gst_file_mem_is_span (gst_file_mem_share file b rel (some len) ff).1
            b true).1 = true
          ↔ rel + len = 0)) := by
  refine ⟨?_, ?_, ?_, ?_, ?_⟩
  · unfold gst_file_mem_is_span
    cases hpar : a.parent with
    | none => simp
    | some p => simp [Bool.and_eq_true]
  · unfold gst_file_mem_is_span
    simp [Bool.and_eq_true]
  · intro h
    simp [gst_file_mem_is_span, h]
  · intro h
    unfold gst_file_mem_is_span
    cases hpar : a.parent with
    | none => simp
    | some p =>
        simp [Bool.and_eq_true]
        omega
  · intro file rel len ff hb
    unfold gst_file_mem_is_span gst_file_mem_share
    simp [hb, GstFileMemory.parent, GstFileMemory.f_offset, GstFileMemory.offset,
      GstFileMemory.size, Bool.and_eq_true]
    omega

/-- Claim C1, witness: the amended theorem applied to the concrete
4-byte top-level block and its sub-view share(b4, 2, 2): the top-level
block is not a span with the sub-view. -/
theorem c1_amended_witness :
    b4.parent = none ∧ (gst_file_mem_is_span b4 s22 true).1 = false :=
  ⟨rfl, (c1_is_span_amended b4 s22).2.2.1 rfl⟩

/-! ### Claim C3 -/

/-- Claim C3: allocation is all-or-nothing. If the capacity check fails
(`next_offset + reserved > total_size`) or the best-effort physical
reservation fails, the allocator returns no block and the state is
returned exactly as it was; otherwise it returns a fully initialized
block (flags, reserved capacity, align, logical offset = requested
prefix, logical size, no parent, file offset = cursor, no mapping) and
advances the cursor. -/
theorem c3_alloc_all_or_nothing (a : GstFileMemAllocator) (S : Nat)
    (params : GstAllocationParams) (ff : Bool) :
    (a.f_offset_next + reservedFor a S params > a.file_size ∨ ff = true →
      gst_file_mem_alloc a S params ff = (none, a))
    ∧ (a.f_offset_next + reservedFor a S params ≤ a.file_size → ff = false →
      gst_file_mem_alloc a S params ff
        = (some (GstFileMemory.mk params.flags (reservedFor a S params)
            params.align params.pfx S none a.f_offset_next none),
           { a with f_offset_next := a.f_offset_next + reservedFor a S params })) := by
  constructor
  · intro h
    rw [alloc_eq]
    by_cases hcap : a.f_offset_next + reservedFor a S params > a.file_size
    · rw [if_pos hcap]
    · rcases h with h | h
      · exact absurd h hcap
      · rw [if_neg hcap, if_pos h]
  · intro h1 h2
    rw [alloc_eq, if_neg (by omega), if_neg (by simp [h2])]

/-- Claim C3, witness: on a one-page pool, a request whose rounded size
is two pages fails and returns the pool state untouched. -/
theorem c3_witness :
    gst_file_mem_alloc ⟨4096, 4096, 0⟩ 4097 gst_allocation_params_default false
      = (none, ⟨4096, 4096, 0⟩) :=
  (c3_alloc_all_or_nothing ⟨4096, 4096, 0⟩ 4097 gst_allocation_params_default
      false).1 (Or.inl (by decide))

/-! ### Claim C4 -/

/-- A fresh pool of capacity 2^20 with page size `p`. -/
def c4pool (p : Nat) : GstFileMemAllocator :=
  { page_size := p, file_size := 2^20, f_offset_next := 0 }

/-- Claim C4: on a fresh pool of capacity 2^20 with a power-of-two page
size at most 2^19, `allocate(2^19 + 1)` succeeds; the immediately
following `allocate(2^19)` fails because the rounded remaining space is
insufficient; the failure leaves the allocator state (in particular the
cursor) unchanged, so any allocation issued after the failed attempt
behaves exactly as it would have before it. -/
theorem c4_capacity_scenario (k : Nat) (hk : k ≤ 19) :
    ((gst_file_mem_alloc (c4pool (2^k)) (2^19 + 1)
        gst_allocation_params_default false).1).isSome = true
    ∧ (gst_file_mem_alloc
        (gst_file_mem_alloc (c4pool (2^k)) (2^19 + 1)
          gst_allocation_params_default false).2
        (2^19) gst_allocation_params_default false).1 = none
    ∧ (gst_file_mem_alloc
        (gst_file_mem_alloc (c4pool (2^k)) (2^19 + 1)
          gst_allocation_params_default false).2
        (2^19) gst_allocation_params_default false).2
      = (gst_file_mem_alloc (c4pool (2^k)) (2^19 + 1)
          gst_allocation_params_default false).2
    ∧ ∀ (S : Nat) (params : GstAllocationParams) (ff : Bool),
        gst_file_mem_alloc
          (gst_file_mem_alloc
            (gst_file_mem_alloc (c4pool (2^k)) (2^19 + 1)
              gst_allocation_params_default false).2
            (2^19) gst_allocation_params_default false).2 S params ff
        = gst_file_mem_alloc
            (gst_file_mem_alloc (c4pool (2^k)) (2^19 + 1)
              gst_allocation_params_default false).2 S params ff := by
  have hp : 0 < (2:ℕ)^k := pow_pos (by norm_num) k
  have hd : (2:ℕ)^k ∣ 2^19 := pow_dvd_pow 2 hk
  have hle : (2:ℕ)^k ≤ 2^19 := Nat.pow_le_pow_right (by norm_num) hk
  have hres1 : reservedFor (c4pool (2^k)) (2^19 + 1) gst_allocation_params_default
      = 2^19 + 2^k := by
    rw [reservedFor_eq]
    show (if align_size (2^19 + 1 + 0 + 0) ((2:ℕ)^k) = 0 then (2:ℕ)^k
          else align_size (2^19 + 1 + 0 + 0) (2^k)) = 2^19 + 2^k
    simp only [Nat.add_zero]
    rw [align_size_succ_of_dvd _ _ hp hd]
    rw [if_neg (by omega)]
  have hstep1 : gst_file_mem_alloc (c4pool (2^k)) (2^19 + 1)
      gst_allocation_params_default false
      = (some (GstFileMemory.mk 0 (2^19 + 2^k) 0 0 (2^19 + 1) none 0 none),
         { page_size := 2^k, file_size := 2^20, f_offset_next := 0 + (2^19 + 2^k) }) := by
    rw [alloc_eq, hres1]
    dsimp only [c4pool, gst_allocation_params_default]
    rw [if_neg (by omega), if_neg (by simp)]
  have hres2 : reservedFor
      { page_size := (2:ℕ)^k, file_size := 2^20, f_offset_next := 0 + (2^19 + 2^k) }
      (2^19) gst_allocation_params_default = 2^19 := by
    rw [reservedFor_eq]
    show (if align_size (2^19 + 0 + 0) ((2:ℕ)^k) = 0 then (2:ℕ)^k
          else align_size (2^19 + 0 + 0) (2^k)) = 2^19
    simp only [Nat.add_zero]
    rw [align_size_of_dvd _ _ hp hd]
    rw [if_neg (by omega)]
  have hstep2 : gst_file_mem_alloc
      { page_size := (2:ℕ)^k, file_size := 2^20, f_offset_next := 0 + (2^19 + 2^k) }
      (2^19) gst_allocation_params_default false
      = (none, { page_size := (2:ℕ)^k, file_size := 2^20,
                 f_offset_next := 0 + (2^19 + 2^k) }) := by
    rw [alloc_eq, hres2]
    dsimp only
    rw [if_pos (by omega)]
  refine ⟨?_, ?_, ?_, ?_⟩
  · rw [hstep1]
    rfl
  · rw [hstep1]
    dsimp only
    rw [hstep2]
  · rw [hstep1]
    dsimp only
    rw [hstep2]
  · intro S params ff
    rw [hstep1]
    dsimp only
    rw [hstep2]

/-- Claim C4, witness: the scenario instantiated at the standard page
size 4096 = 2^12: the failing second allocation returns no block. -/
theorem c4_witness :
    (gst_file_mem_alloc
        (gst_file_mem_alloc (c4pool (2^12)) (2^19 + 1)
          gst_allocation_params_default false).2
        (2^19) gst_allocation_params_default false).1 = none :=
  (c4_capacity_scenario 12 (by norm_num)).2.1

/-! ### Claim C2 -/

/-- Claim C2: on any fresh pool of capacity `C`, after any sequence of
allocate and release operations the cursor equals the sum of the
reserved capacities of the successful allocations so far; it never
decreases as further operations run; release leaves the state (hence the
cursor) unchanged; every successfully allocated block satisfies
`offset + reserved_capacity <= total_size`; and every block allocated in
a later suffix of operations (in particular after any release) has an
offset at least the earlier block's offset plus its reserved capacity,
so released ranges are never reused. -/
theorem c2_cursor_invariants (p C : Nat) (ops l2 : List PoolOp) :
    (runOps ⟨p, C, 0⟩ ops).2.f_offset_next = sumReserved (runOps ⟨p, C, 0⟩ ops).1
    ∧ (runOps ⟨p, C, 0⟩ ops).2.f_offset_next
        ≤ (runOps ⟨p, C, 0⟩ (ops ++ l2)).2.f_offset_next
    ∧ (∀ mem, gst_file_mem_free (runOps ⟨p, C, 0⟩ ops).2 mem
        = (runOps ⟨p, C, 0⟩ ops).2)
    ∧ (∀ m, m ∈ (runOps ⟨p, C, 0⟩ ops).1 → m.f_offset + m.maxsize ≤ C)
    ∧ (∀ m m', m ∈ (runOps ⟨p, C, 0⟩ ops).1
        → m' ∈ (runOps (runOps ⟨p, C, 0⟩ ops).2 l2).1
        → m.f_offset + m.maxsize ≤ m'.f_offset) := by
  refine ⟨?_, ?_, ?_, ?_, ?_⟩
  · have h := runOps_cursor ops ⟨p, C, 0⟩
    simpa using h
  · rw [runOps_append]
    exact runOps_le_cursor l2 _
  · intro mem
    rfl
  · intro m hm
    exact (runOps_blocks ops ⟨p, C, 0⟩ m hm).2.2
  · intro m m' hm hm'
    have h1 := (runOps_blocks ops ⟨p, C, 0⟩ m hm).2.1
    have h2 := (runOps_blocks l2 (runOps ⟨p, C, 0⟩ ops).2 m' hm').1
    omega

/-- The first block allocated from a fresh 4096-page pool by a size-5
request. -/
def blk5 : GstFileMemory := GstFileMemory.mk 0 4096 0 0 5 none 0 none

/-- The block allocated by a size-3 request once the cursor is at 4096. -/
def blk3 : GstFileMemory := GstFileMemory.mk 0 4096 0 0 3 none 4096 none

/-- Operation sequence: one size-5 allocation. -/
def opsW : List PoolOp := [PoolOp.alloc 5 gst_allocation_params_default false]

/-- Operation sequence: release the first block, then allocate 3 bytes. -/
def l2W : List PoolOp :=
  [PoolOp.free blk5, PoolOp.alloc 3 gst_allocation_params_default false]

/-- Claim C2, witness: allocate 5 bytes, release the block, allocate 3
bytes; the second block's offset lies past the released block's reserved
range. -/
theorem c2_witness : blk5.f_offset + blk5.maxsize ≤ blk3.f_offset :=
  (c2_cursor_invariants 4096 (2^20) opsW l2W).2.2.2.2 blk5 blk3
    (by show blk5 ∈ [blk5]
        exact List.mem_singleton.mpr rfl)
    (by show blk3 ∈ [blk3]
        exact List.mem_singleton.mpr rfl)

/-! ### Claim C5 -/

/-- Claim C5: for every successful allocation of size `S` with the given
prefix and padding, issued against any reachable state of a fresh pool
with page size `p`: the reserved capacity equals the round-up of
`S + prefix + padding` to the page granularity, forced up to one full
page when that rounding yields 0; the block's logical size is `S`; the
reserved capacity is at least `S`; and the backing-file offset is a
multiple of the page granularity. -/
theorem c5_reserved_properties (p C : Nat) (hp : 0 < p) (ops : List PoolOp)
    (S : Nat) (params : GstAllocationParams) (ff : Bool) (m : GstFileMemory)
    (h : (gst_file_mem_alloc (runOps ⟨p, C, 0⟩ ops).2 S params ff).1 = some m) :
    m.size = S
    ∧ m.maxsize = (if align_size (S + params.pfx + params.padding) p = 0 then p
                   else align_size (S + params.pfx + params.padding) p)
    ∧ S ≤ m.maxsize
    ∧ p ∣ m.f_offset := by
  obtain ⟨hm, _, _, _⟩ :=
    alloc_success (runOps ⟨p, C, 0⟩ ops).2 S params ff m h
  have hpage : (runOps ⟨p, C, 0⟩ ops).2.page_size = p :=
    (runOps_preserve ops ⟨p, C, 0⟩).1
  subst hm
  refine ⟨rfl, ?_, ?_, ?_⟩
  · show reservedFor (runOps ⟨p, C, 0⟩ ops).2 S params = _
    rw [reservedFor_eq, hpage]
  · show S ≤ reservedFor (runOps ⟨p, C, 0⟩ ops).2 S params
    exact le_reservedFor _ S params (by rw [hpage]; exact hp)
  · show p ∣ (runOps ⟨p, C, 0⟩ ops).2.f_offset_next
    exact runOps_dvd_cursor p hp ops ⟨p, C, 0⟩ rfl (dvd_zero p)

/-- Claim C5, witness: the size-5 allocation from a fresh 4096-page pool
reserves one page, has logical size 5 and a page-aligned file offset. -/
theorem c5_witness :
    blk5.size = 5
    ∧ blk5.maxsize
        = (if align_size (5 + gst_allocation_params_default.pfx
              + gst_allocation_params_default.padding) 4096 = 0 then 4096
           else align_size (5 + gst_allocation_params_default.pfx
              + gst_allocation_params_default.padding) 4096)
    ∧ 5 ≤ blk5.maxsize
    ∧ 4096 ∣ blk5.f_offset :=
  c5_reserved_properties 4096 (2^20) (by norm_num) [] 5
    gst_allocation_params_default false blk5 (by rfl)

/-! ### Claim C6 -/

theorem testBit_or_two (x : Nat) : (x ||| 2).testBit 1 = true := by
  simp [Nat.testBit_or]
  exact Or.inr rfl

/-- Claim C6: for every block and valid (relative offset, length) pair,
with the remainder sentinel resolving to `source.size - relative_offset`,
and under the module invariant that a parent reference always points at
a top-level block: the sub-view's parent is the top-level owner reached
by following the source's parent reference; its reserved capacity,
alignment and backing-file offset equal the source's verbatim; its
logical offset is the source's plus the relative offset; its logical
size is the resolved length; its flags always contain the read-only
lock bit; and it is eagerly read-mapped as part of creation. -/
theorem c6_share_fields (file : Nat → Nat) (src : GstFileMemory)
    (rel : Nat) (len? : Option Nat) (len : Nat)
    (htop : ∀ q, src.parent = some q → q.parent = none)
    (hlen : len = (match len? with | none => src.size - rel | some l => l))
    (_hvalid : rel + len ≤ src.size) :
    ((gst_file_mem_share file src rel len? false).1.parent
        = some (match src.parent with | none => src | some q => q))
    ∧ (match src.parent with | none => src | some q => q).parent = none
    ∧ (gst_file_mem_share file src rel len? false).1.maxsize = src.maxsize
    ∧ (gst_file_mem_share file src rel len? false).1.align = src.align
    ∧ (gst_file_mem_share file src rel len? false).1.f_offset = src.f_offset
    ∧ (gst_file_mem_share file src rel len? false).1.offset = src.offset + rel
    ∧ (gst_file_mem_share file src rel len? false).1.size = len
    ∧ Nat.testBit (gst_file_mem_share file src rel len? false).1.flags 1 = true
    ∧ (gst_file_mem_share file src rel len? false).1.data
        = some (establishMapping file PROT_READ MapMode.shared
            src.f_offset src.maxsize) := by
  refine ⟨rfl, ?_, rfl, rfl, rfl, rfl, hlen.symm, ?_, rfl⟩
  · cases hsrc : src.parent with
    | none => exact hsrc
    | some q => exact htop q hsrc
  · exact testBit_or_two _

/-- Claim C6, witness: share(b4, 1, 2) has logical offset 1, logical
size 2, and carries the read-only flag bit. -/
theorem c6_witness :
    (gst_file_mem_share file0 b4 1 (some 2) false).1.offset = b4.offset + 1
    ∧ (gst_file_mem_share file0 b4 1 (some 2) false).1.size = 2
    ∧ Nat.testBit (gst_file_mem_share file0 b4 1 (some 2) false).1.flags 1
        = true :=
  ⟨(c6_share_fields file0 b4 1 (some 2) 2
      (fun q hq => Option.noConfusion hq) rfl (by decide)).2.2.2.2.2.1,
   (c6_share_fields file0 b4 1 (some 2) 2
      (fun q hq => Option.noConfusion hq) rfl (by decide)).2.2.2.2.2.2.1,
   (c6_share_fields file0 b4 1 (some 2) 2
      (fun q hq => Option.noConfusion hq) rfl (by decide)).2.2.2.2.2.2.2.1⟩

/-! ### Claim C7 -/

/-- Claim C7, counterexample: the claim says a sub-view's established
mapping never observes writes later performed through the parent's
mapping of the same bytes. But `gst_file_mem_map` passes MAP_SHARED for
every mapping, sub-views included: the read mapping installed by
share(b4, 0, 2) over the all-zero file reads byte 0 as 0, yet after a
write of 7 through the parent's (also shared) write mapping of the same
bytes it reads byte 0 as 7. -/
theorem c7_counterexample :
    s02.data = some (establishMapping file0 PROT_READ MapMode.shared 0 4096)
    ∧ (gst_file_mem_map file0 b4 b4.maxsize GST_MAP_WRITE false).1
        = some (establishMapping file0 PROT_WRITE MapMode.shared 0 4096)
    ∧ Mapping.readByte file0
        (establishMapping file0 PROT_READ MapMode.shared 0 4096) 0 = 0
    ∧ Mapping.readByte
        (writeThrough file0
          (establishMapping file0 PROT_WRITE MapMode.shared 0 4096) 0 7)
        (establishMapping file0 PROT_READ MapMode.shared 0 4096) 0 = 7 :=
  ⟨rfl, rfl, rfl, rfl⟩

/-- Claim C7 (amended): every mapping the code establishes — for
top-level blocks and for shared sub-views alike — is MAP_SHARED. A
sub-view's read mapping therefore reads through to the current backing
file, observing writes subsequently performed through a sibling's or the
parent's shared mapping of the same bytes; and writes through a shared
(in particular a top-level write) mapping reach the backing file, hence
are visible to subsequently established mappings. -/
theorem c7_shared_mapping_semantics (file : Nat → Nat) (src : GstFileMemory)
    (rel : Nat) (len? : Option Nat) (wm : Mapping)
    (hw : wm.mode = MapMode.shared) (i v j : Nat) :
    (gst_file_mem_share file src rel len? false).1.data
      = some (establishMapping file PROT_READ MapMode.shared
          src.f_offset src.maxsize)
    ∧ (∀ (maxsize flags : Nat),
        (gst_file_mem_map file src maxsize flags false).1
          = some (establishMapping file (gst_file_mem_get_map_prot flags)
              MapMode.shared src.f_offset maxsize))
    ∧ Mapping.readByte (writeThrough file wm i v)
        (establishMapping file PROT_READ MapMode.shared
          src.f_offset src.maxsize) j
      = writeThrough file wm i v (src.f_offset + j)
    ∧ writeThrough file wm i v (wm.fileOff + i) = v := by
  refine ⟨rfl, fun maxsize flags => rfl, rfl, ?_⟩
  unfold writeThrough
  rw [hw]
  simp

/-- Claim C7, witness: a write of value 7 through a shared write mapping
is visible at the written position of the backing file. -/
theorem c7_amended_witness :
    writeThrough file0
      (establishMapping file0 PROT_WRITE MapMode.shared 0 4096) 0 7
      ((establishMapping file0 PROT_WRITE MapMode.shared 0 4096).fileOff + 0)
      = 7 :=
  (c7_shared_mapping_semantics file0 b4 0 (some 2)
    (establishMapping file0 PROT_WRITE MapMode.shared 0 4096) rfl 0 7 0).2.2.2

/-! ### Claim C8 -/

/-- Claim C8: share mutates its source. The eager read mapping is
established through `gst_file_mem_map` applied to the source, whose
`return mem->data = res` stores the fresh mapping into the source's own
current-mapping field, overwriting whatever the source held there
before the call (the returned source equals the old source with only
the data field replaced); the same mapping is installed as the
sub-view's data. -/
theorem c8_share_mutates_source (file : Nat → Nat) (src : GstFileMemory)
    (rel : Nat) (len? : Option Nat) :
    (gst_file_mem_share file src rel len? false).2
      = src.withData (some (establishMapping file PROT_READ MapMode.shared
          src.f_offset src.maxsize))
    ∧ (gst_file_mem_share file src rel len? false).1.data
      = some (establishMapping file PROT_READ MapMode.shared
          src.f_offset src.maxsize) :=
  ⟨rfl, rfl⟩

/-! ### Claim C9 -/

/-- Claim C9: mapping with an access-flag value other than exactly
GST_MAP_READ or exactly GST_MAP_WRITE (for example their combination) is
not rejected: the protection resolves to PROT_NONE through
g_return_val_if_reached, the mmap call still proceeds, and (when mmap
itself succeeds) an address is returned whose mapping permits neither
reads nor writes. -/
theorem c9_map_bad_flags (file : Nat → Nat) (mem : GstFileMemory)
    (flags : Nat) (h1 : flags ≠ GST_MAP_READ) (h2 : flags ≠ GST_MAP_WRITE) :
    gst_file_mem_get_map_prot flags = PROT_NONE
    ∧ (gst_file_mem_map file mem mem.maxsize flags false).1
        = some (establishMapping file PROT_NONE MapMode.shared
            mem.f_offset mem.maxsize)
    ∧ (establishMapping file PROT_NONE MapMode.shared
        mem.f_offset mem.maxsize).canRead = false
    ∧ (establishMapping file PROT_NONE MapMode.shared
        mem.f_offset mem.maxsize).canWrite = false := by
  have hprot : gst_file_mem_get_map_prot flags = PROT_NONE := by
    unfold gst_file_mem_get_map_prot
    rw [if_neg h1, if_neg h2]
  refine ⟨hprot, ?_,
    by simp [Mapping.canRead, establishMapping, PROT_NONE],
    by simp [Mapping.canWrite, establishMapping, PROT_NONE]⟩
  simp [gst_file_mem_map, hprot]

/-- Claim C9, witness: mapping with combined GST_MAP_READ|GST_MAP_WRITE
still returns a mapping (with PROT_NONE protection). -/
theorem c9_witness :
    (gst_file_mem_map file0 b4 b4.maxsize (GST_MAP_READ ||| GST_MAP_WRITE)
        false).1
      = some (establishMapping file0 PROT_NONE MapMode.shared
          b4.f_offset b4.maxsize) :=
  (c9_map_bad_flags file0 b4 (GST_MAP_READ ||| GST_MAP_WRITE)
    (by decide) (by decide)).2.1

/-! ### Claim C10 -/

/-- Claim C10, counterexample: the claim says the earlier and the current
allocation functions assign the same backing-file offset to each
successful allocation. On a fresh pool (page 4096, capacity 2^20) a
single size-1 request gets file offset 0 from the current function but
file offset 4096 from the earlier one (whose cursor-update statement
assigns instead of accumulating). -/
theorem c10_counterexample :
    Option.map GstFileMemory.f_offset
      (gst_file_mem_alloc ⟨4096, 2^20, 0⟩ 1
        gst_allocation_params_default false).1 = some 0
    ∧ Option.map GstFileMemory.f_offset
      (gst_file_mem_alloc_v0 ⟨4096, 2^20, 0⟩ 1
        gst_allocation_params_default).1 = some 4096 :=
  ⟨rfl, rfl⟩

/-- Claim C10 (amended): the two allocation functions are not observably
equivalent. On a fresh pool, for any request whose rounded reserved size
`r` is nonzero and fits the capacity, both leave the cursor at `r` after
the call, but the current function assigns the block file offset 0 while
the earlier function assigns it `r`: the earlier version overwrites the
cursor with the reserved capacity of the current request (instead of
advancing it) and hands the block the post-update cursor value, so the
assigned offsets always differ. -/
theorem c10_not_equivalent (p C S : Nat) (params : GstAllocationParams)
    (hr : align_size (S + params.pfx + params.padding) p ≠ 0)
    (hfit : align_size (S + params.pfx + params.padding) p ≤ C) :
    (gst_file_mem_alloc ⟨p, C, 0⟩ S params false).2.f_offset_next
      = align_size (S + params.pfx + params.padding) p
    ∧ (gst_file_mem_alloc_v0 ⟨p, C, 0⟩ S params).2.f_offset_next
      = align_size (S + params.pfx + params.padding) p
    ∧ Option.map GstFileMemory.f_offset
        (gst_file_mem_alloc ⟨p, C, 0⟩ S params false).1 = some 0
    ∧ Option.map GstFileMemory.f_offset
        (gst_file_mem_alloc_v0 ⟨p, C, 0⟩ S params).1
      = some (align_size (S + params.pfx + params.padding) p)
    ∧ Option.map GstFileMemory.f_offset
        (gst_file_mem_alloc ⟨p, C, 0⟩ S params false).1
      ≠ Option.map GstFileMemory.f_offset
          (gst_file_mem_alloc_v0 ⟨p, C, 0⟩ S params).1 := by
  have hresv : reservedFor ⟨p, C, 0⟩ S params
      = align_size (S + params.pfx + params.padding) p := by
    rw [reservedFor_eq]
    dsimp only
    rw [if_neg hr]
  have hnew : gst_file_mem_alloc ⟨p, C, 0⟩ S params false
      = (some (GstFileMemory.mk params.flags
          (align_size (S + params.pfx + params.padding) p) params.align
          params.pfx S none 0 none),
         ⟨p, C, 0 + align_size (S + params.pfx + params.padding) p⟩) := by
    rw [alloc_eq, hresv]
    dsimp only
    rw [if_neg (by omega), if_neg (by simp)]
  have hold : gst_file_mem_alloc_v0 ⟨p, C, 0⟩ S params
      = (some (GstFileMemory.mk params.flags
          (align_size (S + params.pfx + params.padding) p) params.align
          params.pfx S none
          (align_size (S + params.pfx + params.padding) p) none),
         ⟨p, C, align_size (S + params.pfx + params.padding) p⟩) := by
    unfold gst_file_mem_alloc_v0
    dsimp only
    rw [if_neg (by omega)]
  refine ⟨?_, ?_, ?_, ?_, ?_⟩
  · rw [hnew]
    exact Nat.zero_add _
  · rw [hold]
  · rw [hnew]
    rfl
  · rw [hold]
    rfl
  · rw [hnew, hold]
    simp only [Option.map_some]
    intro hcontra
    exact hr (by
      have := Option.some.inj hcontra
      simp [GstFileMemory.f_offset] at this
      omega)

/-- Claim C10, witness: the two functions assign different file offsets
to the first allocation from a fresh pool. -/
theorem c10_amended_witness :
    Option.map GstFileMemory.f_offset
      (gst_file_mem_alloc ⟨4096, 2^20, 0⟩ 1
        gst_allocation_params_default false).1
    ≠ Option.map GstFileMemory.f_offset
        (gst_file_mem_alloc_v0 ⟨4096, 2^20, 0⟩ 1
          gst_allocation_params_default).1 :=
  (c10_not_equivalent 4096 (2^20) 1 gst_allocation_params_default
    (by decide) (by decide)).2.2.2.2

end FileMem
